import Mathlib

/-!
Verification of `gallery/image_classification/image_classification.py` from the
awesome-streamlit gallery: a Streamlit app that lets a user pick a pretrained
Keras image classifier, upload an image, and see the top predictions.

The Python module is shallowly embedded below.  Conventions of the embedding:

* Probabilities and pixel-derived numbers are modelled as exact rationals `ℚ`
  (Python floats carry only negligible representation noise at the decimal
  constants the spec talks about; all rounding in the source is half-to-even,
  which is modelled exactly by `roundHalfEven`).
* A PIL image is modelled by its geometry (`width`, `height`, `channels`);
  pixel values play no role in any claim about the app itself.
* A numpy array / tensor is modelled by its shape.  The normalization
  functions from the Keras library (`imagenet_utils.preprocess_input`,
  `inception_v3.preprocess_input`) are external, shape-preserving maps from an
  array to a normalized array of the same shape, so on shapes they act as the
  identity.
* The external pretrained network is a parameter `predict : Tensor → List (List ℚ)`
  (a batch of score rows); `imagenet_utils.decode_predictions` is embedded
  faithfully from the library source (for each batch row, take the 5 classes
  with the largest scores, in descending score order).
* Streamlit's `st.cache` decorator on `get_model` is embedded by explicit
  state passing: a cache maps the memoized function's argument (the profile
  tuple) to its result, and each fresh instantiation of a network produces a
  handle with a fresh identity, so reference equality of handles is equality
  of `instanceId`.
* Streamlit rendering calls are embedded as a trace of `RenderAction`s, and
  an uncaught Python exception as the `none` branch of an `Option` result.
-/

/-- Round-half-to-even on rationals: the rounding used by Python's `round`,
`float.__format__` with `.0f`, and numpy/pandas `round`. -/
def roundHalfEven (x : ℚ) : ℤ :=
  let f := ⌊x⌋
  let frac := x - (f : ℚ)
  if frac < 1 / 2 then f
  else if 1 / 2 < frac then f + 1
  else if f % 2 = 0 then f else f + 1

/-- `pandas.Series.round(2)`: round to 2 decimal places, half to even. -/
def np_round2 (x : ℚ) : ℚ :=
  ((roundHalfEven (x * 100) : ℤ) : ℚ) / 100

/-- Python `str.capitalize()`: first character uppercased, the rest
lowercased (labels here are ASCII ImageNet class names). -/
def capitalize (s : String) : String :=
  match s.data with
  | [] => ""
  | c :: cs => String.mk (c.toUpper :: cs.map Char.toLower)

/-- A decoded PIL image, modelled by its geometry. -/
structure PILImage where
  width : ℕ
  height : ℕ
  channels : ℕ
deriving DecidableEq

/-- `PIL.Image.resize(size)` with `size = (width, height)`: the result has the
requested geometry and the original channel count. -/
def PILImage.resize (image : PILImage) (size : ℕ × ℕ) : PILImage :=
  { width := size.1, height := size.2, channels := image.channels }

/-- A numpy array, modelled by its shape. -/
structure Tensor where
  shape : List ℕ
deriving DecidableEq

/-- `keras.preprocessing.image.img_to_array`: a `(height, width, channels)`
array from a PIL image. -/
def img_to_array (image : PILImage) : Tensor :=
  { shape := [image.height, image.width, image.channels] }

/-- `np.expand_dims(x, axis=0)`: prepend a batch axis of length 1. -/
def np_expand_dims0 (t : Tensor) : Tensor :=
  { shape := 1 :: t.shape }

/-- The two preprocessing functions used by the registry. -/
inductive PreprocessFn where
  | imagenet_utils_preprocess
  | inception_v3_preprocess
deriving DecidableEq

/-- Applying a Keras preprocessing function: both library functions map an
array to a normalized array of the same shape, hence act as the identity on
the shape-level model of arrays. -/
def applyPreprocess (f : PreprocessFn) (t : Tensor) : Tensor :=
  match f with
  | PreprocessFn.imagenet_utils_preprocess => t
  | PreprocessFn.inception_v3_preprocess => t

/-- The six Keras architectures imported by the module. -/
inductive KerasArch where
  | ResNet50
  | VGG16
  | VGG19
  | InceptionV3
  | Xception
  | MobileNetV2
deriving DecidableEq

/-- The `KerasApplication` NamedTuple: a Keras Application wrapped for ease
of use, with the source's default field values. -/
structure KerasApplication where
  name : String
  keras_application : KerasArch
  input_shape : ℕ × ℕ := (224, 224)
  preprocess_input_func : PreprocessFn := PreprocessFn.imagenet_utils_preprocess
  url : String := "https://keras.io/applications/"
deriving DecidableEq

/-- `KerasApplication.to_input_shape`: resizes the image to `input_shape`. -/
def KerasApplication.to_input_shape (app : KerasApplication) (image : PILImage) : PILImage :=
  image.resize app.input_shape

/-- `KerasApplication.preprocess_input`: resize, convert to array, prepend the
batch axis, then apply the profile's preprocessing function. -/
def KerasApplication.preprocess_input (app : KerasApplication) (image : PILImage) : Tensor :=
  let image1 := app.to_input_shape image
  let arr1 := img_to_array image1
  let arr2 := np_expand_dims0 arr1
  applyPreprocess app.preprocess_input_func arr2

/-- One decoded prediction: the `(id, prediction, probability)` 3-tuple. -/
structure Prediction where
  class_id : String
  label : String
  prob : ℚ
deriving DecidableEq

/-- `imagenet_utils.decode_predictions` pairs each score of a row with the
class table entry at the same index. -/
def zipTable (table : List (String × String)) (scores : List ℚ) : List Prediction :=
  (table.zip scores).map (fun ts => { class_id := ts.1.1, label := ts.1.2, prob := ts.2 })

/-- Insert a prediction into a list kept in descending-probability order. -/
def insertDesc (x : Prediction) : List Prediction → List Prediction
  | [] => [x]
  | y :: ys => if y.prob ≤ x.prob then x :: y :: ys else y :: insertDesc x ys

/-- Sort predictions by descending probability (the effect of the library's
`argsort()[-top:][::-1]` selection). -/
def sortDesc : List Prediction → List Prediction
  | [] => []
  | x :: xs => insertDesc x (sortDesc xs)

/-- `imagenet_utils.decode_predictions(preds)` with the default `top=5`: for
each batch row, the 5 classes with the largest scores, labelled from the
class table, in descending score order. -/
def decode_predictions (table : List (String × String)) (preds : List (List ℚ)) :
    List (List Prediction) :=
  preds.map (fun scores => (sortDesc (zipTable table scores)).take 5)

/-- One invocation of the `report_progress_func` callback. -/
structure ProgressCall where
  message : String
  value : ℕ
deriving DecidableEq

/-- A handle to an instantiated pretrained network.  `instanceId` is fresh per
instantiation, so handle equality models Python reference equality. -/
structure ModelHandle where
  arch : KerasArch
  instanceId : ℕ
deriving DecidableEq

/-- The state of Streamlit's `st.cache` for `get_model`, keyed by the
decorated method's argument (the profile tuple), plus a counter supplying
fresh identities for newly instantiated networks. -/
structure CacheState where
  nextId : ℕ
  entries : List (KerasApplication × ModelHandle)
deriving DecidableEq

/-- Cache lookup by profile. -/
def cacheLookup (app : KerasApplication) :
    List (KerasApplication × ModelHandle) → Option ModelHandle
  | [] => none
  | kv :: rest => if kv.1 = app then some kv.2 else cacheLookup app rest

/-- `KerasApplication.get_model` under `@st.cache()`: return the memoized
network for this profile if present, otherwise instantiate
`keras_application(weights="imagenet")` (a fresh handle) and memoize it. -/
def KerasApplication.get_model (app : KerasApplication) (s : CacheState) :
    ModelHandle × CacheState :=
  match cacheLookup app s.entries with
  | some h => (h, s)
  | none =>
      let h : ModelHandle := { arch := app.keras_application, instanceId := s.nextId }
      (h, { nextId := s.nextId + 1, entries := (app, h) :: s.entries })

/-- The first progress message of `get_top_predictions`. -/
def loadingMessage (app : KerasApplication) : String :=
  "Loading " ++ app.name ++ " model ... (This might take from seconds to several minutes)"

/-- The third progress message of `get_top_predictions`. -/
def classifyingMessage (app : KerasApplication) : String :=
  "Classifying image with \x27" ++ app.name ++ "\x27... "

/-- `KerasApplication.get_top_predictions`: report progress, load the model,
preprocess the image, run the forward pass, decode, clear the progress
display, and return `top_predictions[0]`.  The result is the trace of
`report_progress_func` calls paired with the returned list; `none` models the
`IndexError` Python raises when the decoded batch is empty.  The cache state
threading of `get_model` is irrelevant to the returned predictions
(`predict` is the loaded network's forward pass), so it is elided here and
studied separately via `KerasApplication.get_model`. -/
def KerasApplication.get_top_predictions (app : KerasApplication)
    (table : List (String × String)) (predict : Tensor → List (List ℚ))
    (image : PILImage) : List ProgressCall × Option (List Prediction) :=
  let trace1 := [({ message := loadingMessage app, value := 10 } : ProgressCall)]
  let trace2 := trace1 ++ [({ message := "Processing image ... ", value := 67 } : ProgressCall)]
  let input := app.preprocess_input image
  let trace3 := trace2 ++ [({ message := classifyingMessage app, value := 85 } : ProgressCall)]
  let predictions := predict input
  let top_predictions := decode_predictions table predictions
  let trace4 := trace3 ++ [({ message := "", value := 0 } : ProgressCall)]
  (trace4, top_predictions.head?)

/-- `KerasApplication.to_main_prediction_string`: the pretty string for the
main prediction, from `predictions[0]`; `none` models the `IndexError` on an
empty list.  `{prob * 100:.0f}` is round-half-to-even to an integer. -/
def KerasApplication.to_main_prediction_string : List Prediction → Option String
  | [] => none
  | p :: _ =>
      some ("It\x27s a **" ++ capitalize p.label ++ "** with probability "
        ++ toString (roundHalfEven (p.prob * 100)) ++ "%")

/-- The Altair chart built by `to_predictions_chart`: the dataframe rows
(columns id / prediction / probability) plus the encoding directives. -/
structure AltChart where
  rows : List Prediction
  xField : String
  yField : String
  ySortField : String
  ySortOrder : String
deriving DecidableEq

/-- `KerasApplication.to_predictions_chart`: build the dataframe from the
prediction tuples in order, replace the probability column by
`probability.round(2) * 100`, and encode x = probability, y = prediction
sorted descending by probability. -/
def KerasApplication.to_predictions_chart (predictions : List Prediction) : AltChart :=
  { rows := predictions.map (fun p =>
      { class_id := p.class_id, label := p.label, prob := np_round2 p.prob * 100 }),
    xField := "probability",
    yField := "prediction",
    ySortField := "probability",
    ySortOrder := "descending" }

/-- The spec's reading of the chart probability: the probability scaled to
percent and then rounded to 2 decimals. -/
def chart_probability_per_spec (p : ℚ) : ℚ :=
  np_round2 (p * 100)

/-- `get_resources_markdown`: the sidebar Markdown for the selected model. -/
def get_resources_markdown (model : KerasApplication) : String :=
  "### Resources\n\n- [Keras](https://keras.io/)\n  - [Keras Apps](https://keras.io/applications)\n    - ["
    ++ model.name ++ " Docs](" ++ model.url
    ++ ")\n- Images\n  - [ImageNet](http://www.image-net.org/)\n  - [Awesome Images](https://github.com/heyalexej/awesome-images)\n"

/-- `KERAS_APPLICATIONS`: the module-level registry of the six wrapped Keras
Applications, in source order. -/
def KERAS_APPLICATIONS : List KerasApplication :=
  [ { name := "ResNet50", keras_application := KerasArch.ResNet50,
      url := "https://keras.io/applications/#resnet" },
    { name := "VGG16", keras_application := KerasArch.VGG16,
      url := "https://keras.io/applications/#vgg16" },
    { name := "VGG19", keras_application := KerasArch.VGG19,
      url := "https://keras.io/applications/#vgg19" },
    { name := "InceptionV3", keras_application := KerasArch.InceptionV3,
      input_shape := (299, 299),
      preprocess_input_func := PreprocessFn.inception_v3_preprocess,
      url := "https://keras.io/applications/#inceptionv3" },
    { name := "Xception", keras_application := KerasArch.Xception,
      input_shape := (299, 299),
      preprocess_input_func := PreprocessFn.inception_v3_preprocess,
      url := "https://keras.io/applications/#xception" },
    { name := "MobileNetV2", keras_application := KerasArch.MobileNetV2,
      url := "https://keras.io/applications/#mobilenet" } ]

/-- `IMAGE_TYPES`: the accepted upload extensions. -/
def IMAGE_TYPES : List String := ["png", "jpg"]

/-- The module docstring, shown by `st.info(__doc__)`. -/
def moduleDoc : String :=
  "# Image Classification\n\nThis is an image classifier app that enables a user to\n\n- select a **classifier model**,\n- upload an image\n\nand get a prediction/ classification in return.\n\nThis app is inspired by the [imageNet](https://github.com/iamatulsingh/imageNet-streamlit)\napplication developed by awesome [Atul Kumar Singh](https://github.com/iamatulsingh)."

/-- One Streamlit rendering effect performed by `main`. -/
inductive RenderAction where
  | title (text : String)
  | info (text : String)
  | sidebarInfo (text : String)
  | imageDisplay
  | progressBar (value : ℕ)
  | progressMarkdown (text : String)
  | clearProgress
  | subheader (text : String)
  | writeText (text : String)
  | altairChart (chart : AltChart)
deriving DecidableEq

/-- The `report_progress` closure of `main`: value 0 empties both
placeholders, any other value updates the bar and the message. -/
def report_progress (call : ProgressCall) : List RenderAction :=
  if call.value = 0 then [RenderAction.clearProgress]
  else [RenderAction.progressBar call.value, RenderAction.progressMarkdown call.message]

/-- The rendering `main` performs before the upload gate: title, module
docstring, and the sidebar resources for the selected model (the sidebar
selectbox itself is an input control, not a rendering of results). -/
def headerActions (selected : KerasApplication) : List RenderAction :=
  [ RenderAction.title "Image Classification with Keras and Tensorflow.",
    RenderAction.info moduleDoc,
    RenderAction.sidebarInfo (get_resources_markdown selected) ]

/-- `main`: render the header, then gate on `if image:`.  With no upload the
flow stops there.  With an upload, display the image, run
`get_top_predictions` (its progress callbacks render through
`report_progress`), then render the main-prediction text and the chart.
`none` models an uncaught exception inside the gated block. -/
def ImageClassification.main (selected : KerasApplication) (upload : Option PILImage)
    (table : List (String × String)) (predict : Tensor → List (List ℚ)) :
    Option (List RenderAction) :=
  match upload with
  | none => some (headerActions selected)
  | some img =>
      let r := selected.get_top_predictions table predict img
      match r.2 with
      | none => none
      | some predictions =>
          match KerasApplication.to_main_prediction_string predictions with
          | none => none
          | some main_prediction =>
              some (headerActions selected
                ++ [RenderAction.imageDisplay]
                ++ r.1.flatMap report_progress
                ++ [ RenderAction.subheader "Main Prediction",
                     RenderAction.writeText main_prediction,
                     RenderAction.subheader "Alternative Predictions",
                     RenderAction.altairChart
                       (KerasApplication.to_predictions_chart predictions) ])

/-! ## Helper lemmas about descending insertion sort -/

lemma insertDesc_perm (x : Prediction) (l : List Prediction) :
    List.Perm (insertDesc x l) (x :: l) := by
  induction l with
  | nil => exact List.Perm.refl _
  | cons y ys ih =>
      by_cases hc : y.prob ≤ x.prob
      · simp only [insertDesc, if_pos hc]
        exact List.Perm.refl _
      · simp only [insertDesc, if_neg hc]
        exact (ih.cons y).trans (List.Perm.swap x y ys)

lemma sortDesc_perm (l : List Prediction) : List.Perm (sortDesc l) l := by
  induction l with
  | nil => exact List.Perm.refl _
  | cons x xs ih => exact (insertDesc_perm x (sortDesc xs)).trans (ih.cons x)

lemma insertDesc_pairwise (x : Prediction) (l : List Prediction)
    (h : List.Pairwise (fun a b => b.prob ≤ a.prob) l) :
    List.Pairwise (fun a b => b.prob ≤ a.prob) (insertDesc x l) := by
  induction l with
  | nil => simp [insertDesc]
  | cons y ys ih =>
      rcases List.pairwise_cons.mp h with ⟨hy, hys⟩
      by_cases hc : y.prob ≤ x.prob
      · simp only [insertDesc, if_pos hc]
        refine List.Pairwise.cons ?_ h
        intro z hz
        rcases List.mem_cons.mp hz with rfl | hz
        · exact hc
        · exact le_trans (hy z hz) hc
      · simp only [insertDesc, if_neg hc]
        refine List.Pairwise.cons ?_ (ih hys)
        intro z hz
        rcases List.mem_cons.mp ((insertDesc_perm x ys).mem_iff.mp hz) with rfl | hz
        · exact le_of_lt (lt_of_not_le hc)
        · exact hy z hz

lemma sortDesc_pairwise (l : List Prediction) :
    List.Pairwise (fun a b => b.prob ≤ a.prob) (sortDesc l) := by
  induction l with
  | nil => simp [sortDesc]
  | cons x xs ih => exact insertDesc_pairwise x (sortDesc xs) ih

/-! ## The claims -/

/-- C1, counterexample to the claim as stated: `to_predictions_chart` rounds
the probability to 2 decimals first and scales to percent afterwards, so on
the prediction list `[("n04285008", "sports_car", 0.876)]` the single chart
row carries probability 88, whereas a probability scaled to percent and then
rounded to 2 decimals would be 87.6. -/
theorem to_predictions_chart_not_scaled_then_rounded :
    (KerasApplication.to_predictions_chart
        [{ class_id := "n04285008", label := "sports_car", prob := 876/1000 }]).rows.map
        Prediction.prob = [88]
    ∧ chart_probability_per_spec (876/1000) = 438/5
    ∧ ((88 : ℚ) ≠ 438/5) := by
  refine ⟨?_, ?_, ?_⟩
  · norm_num [KerasApplication.to_predictions_chart, np_round2, roundHalfEven]
    rw [Int.fract]
    norm_num
  · norm_num [chart_probability_per_spec, np_round2, roundHalfEven]
  · norm_num

/-- C1 (amended): for every prediction list, `to_predictions_chart` returns a
tabular structure whose rows are the (class id, class label, probability)
tuples with the probability rounded to 2 decimals and then scaled to percent;
in particular, on the input `[("n01", "cat", 0.87), ("n02", "dog", 0.05)]` it
returns two rows with first row probability 87.0 and second row
probability 5.0. -/
theorem to_predictions_chart_rows_rounded_then_scaled :
    (∀ predictions : List Prediction,
        (KerasApplication.to_predictions_chart predictions).rows
          = predictions.map (fun p =>
              { class_id := p.class_id, label := p.label, prob := np_round2 p.prob * 100 }))
    ∧ (KerasApplication.to_predictions_chart
          [{ class_id := "n01", label := "cat", prob := 87/100 },
           { class_id := "n02", label := "dog", prob := 5/100 }]).rows.map
          Prediction.prob = [87, 5] := by
  constructor
  · intro predictions
    rfl
  · norm_num [KerasApplication.to_predictions_chart, np_round2, roundHalfEven]

/-- C2: on every non-empty prediction list, `to_main_prediction_string`
returns the sentence naming the first entry's label capitalized together with
its probability rounded (half-to-even) to the nearest percent; on the input
`[("n01", "cat", 0.87), ("n02", "dog", 0.05)]` the returned text is
`It's a **Cat** with probability 87%`, which contains `Cat` and `87%`. -/
theorem to_main_prediction_string_top_class_percent :
    (∀ (p : Prediction) (rest : List Prediction),
        KerasApplication.to_main_prediction_string (p :: rest)
          = some ("It\x27s a **" ++ capitalize p.label ++ "** with probability "
              ++ toString (roundHalfEven (p.prob * 100)) ++ "%"))
    ∧ KerasApplication.to_main_prediction_string
        [{ class_id := "n01", label := "cat", prob := 87/100 },
         { class_id := "n02", label := "dog", prob := 5/100 }]
        = some "It\x27s a **Cat** with probability 87%" := by
  constructor
  · intro p rest
    rfl
  · norm_num [KerasApplication.to_main_prediction_string, roundHalfEven, capitalize]
    rfl

/-- C3: for every profile and every decoded image, `preprocess_input` is the
composition resize → to-array → prepend batch axis → profile normalization
function, and the resulting tensor has a leading batch dimension of size 1
and spatial dimensions equal to the profile's `input_shape`. -/
theorem preprocess_input_shape :
    ∀ (app : KerasApplication) (image : PILImage),
      app.preprocess_input image
          = applyPreprocess app.preprocess_input_func
              (np_expand_dims0 (img_to_array (app.to_input_shape image)))
      ∧ (app.preprocess_input image).shape
          = [1, app.input_shape.2, app.input_shape.1, image.channels] := by
  intro app image
  refine ⟨rfl, ?_⟩
  rcases app with ⟨n, ka, ish, pf, u⟩
  cases pf <;>
    simp [KerasApplication.preprocess_input, KerasApplication.to_input_shape,
      PILImage.resize, img_to_array, np_expand_dims0, applyPreprocess]

/-- C4: every completed run of `get_top_predictions` invokes the progress
callback exactly four times, in order: model loading at value 10,
preprocessing at value 67, inference at value 85, and completion with the
empty message and the sentinel value 0 that clears the indicator. -/
theorem get_top_predictions_progress_trace :
    ∀ (app : KerasApplication) (table : List (String × String))
      (predict : Tensor → List (List ℚ)) (image : PILImage),
      (app.get_top_predictions table predict image).1
        = [ { message := loadingMessage app, value := 10 },
            { message := "Processing image ... ", value := 67 },
            { message := classifyingMessage app, value := 85 },
            { message := "", value := 0 } ] := by
  intro app table predict image
  rfl

/-- C6: the six registry entries have pairwise distinct names, and every
entry's `input_shape` has two positive components.  (The registry is a plain
`def` of an immutable list; no operation in the module mutates it.) -/
theorem keras_applications_registry_invariants :
    (KERAS_APPLICATIONS.map KerasApplication.name).Nodup
    ∧ ∀ app ∈ KERAS_APPLICATIONS, 0 < app.input_shape.1 ∧ 0 < app.input_shape.2 := by
  constructor
  · decide
  · intro app happ
    fin_cases happ <;> decide

/-- Witness for C6 at the first registry entry (ResNet50). -/
theorem keras_applications_registry_invariants_witness :
    0 < ((⟨"ResNet50", KerasArch.ResNet50, (224, 224),
          PreprocessFn.imagenet_utils_preprocess,
          "https://keras.io/applications/#resnet"⟩ : KerasApplication)).input_shape.1
    ∧ 0 < ((⟨"ResNet50", KerasArch.ResNet50, (224, 224),
          PreprocessFn.imagenet_utils_preprocess,
          "https://keras.io/applications/#resnet"⟩ : KerasApplication)).input_shape.2 :=
  keras_applications_registry_invariants.2 _ (by decide)

/-- C7: `get_model` is memoized per profile: a second call on the same
profile returns the very handle produced by the first call and leaves the
cache state (including the fresh-instance counter) unchanged, so the network
is instantiated at most once per profile. -/
theorem get_model_memoized :
    ∀ (app : KerasApplication) (s : CacheState),
      app.get_model (app.get_model s).2 = ((app.get_model s).1, (app.get_model s).2) := by
  intro app s
  cases hc : cacheLookup app s.entries with
  | some h => simp [KerasApplication.get_model, hc]
  | none => simp [KerasApplication.get_model, hc, cacheLookup]

/-- C8: with no uploaded file, `main` renders only the header (title, module
docstring, sidebar resources), returns normally (no error), and never invokes
classification: its output carries no image, progress, prediction or chart
action and does not depend on the network at all. -/
theorem main_no_upload_gate :
    ∀ (selected : KerasApplication) (table : List (String × String))
      (predict : Tensor → List (List ℚ)),
      ImageClassification.main selected none table predict
          = some [ RenderAction.title "Image Classification with Keras and Tensorflow.",
                   RenderAction.info moduleDoc,
                   RenderAction.sidebarInfo (get_resources_markdown selected) ]
      ∧ ∀ predictAlt : Tensor → List (List ℚ),
          ImageClassification.main selected none table predictAlt
            = ImageClassification.main selected none table predict := by
  intro selected table predict
  exact ⟨rfl, fun _ => rfl⟩

/-- C9: the dataframe rows of the chart keep the input order (ids and labels
columnwise equal to the input list), the descending sort lives only in the
y-axis encoding directive, and rows of an input that is not sorted descending
stay unsorted: on `[("n02", "dog", 0.05), ("n01", "cat", 0.87)]` the row
probabilities are `[5, 87]`. -/
theorem to_predictions_chart_preserves_input_order :
    (∀ predictions : List Prediction,
        (KerasApplication.to_predictions_chart predictions).rows.map Prediction.class_id
            = predictions.map Prediction.class_id
        ∧ (KerasApplication.to_predictions_chart predictions).rows.map Prediction.label
            = predictions.map Prediction.label
        ∧ (KerasApplication.to_predictions_chart predictions).ySortField = "probability"
        ∧ (KerasApplication.to_predictions_chart predictions).ySortOrder = "descending")
    ∧ (KerasApplication.to_predictions_chart
          [{ class_id := "n02", label := "dog", prob := 5/100 },
           { class_id := "n01", label := "cat", prob := 87/100 }]).rows.map
          Prediction.prob = [5, 87] := by
  constructor
  · intro predictions
    refine ⟨?_, ?_, rfl, rfl⟩ <;> simp [KerasApplication.to_predictions_chart]
  · norm_num [KerasApplication.to_predictions_chart, np_round2, roundHalfEven]

/-- C10: the registry holds exactly six profiles, in the order ResNet50,
VGG16, VGG19, InceptionV3, Xception, MobileNetV2; InceptionV3 and Xception
use input shape (299, 299) with the Inception preprocessing function, and the
other four use the default (224, 224) with the default ImageNet preprocessing
function. -/
theorem keras_applications_registry_contents :
    KERAS_APPLICATIONS.map KerasApplication.name
        = ["ResNet50", "VGG16", "VGG19", "InceptionV3", "Xception", "MobileNetV2"]
    ∧ KERAS_APPLICATIONS.map KerasApplication.input_shape
        = [(224, 224), (224, 224), (224, 224), (299, 299), (299, 299), (224, 224)]
    ∧ KERAS_APPLICATIONS.map KerasApplication.preprocess_input_func
        = [PreprocessFn.imagenet_utils_preprocess, PreprocessFn.imagenet_utils_preprocess,
           PreprocessFn.imagenet_utils_preprocess, PreprocessFn.inception_v3_preprocess,
           PreprocessFn.inception_v3_preprocess, PreprocessFn.imagenet_utils_preprocess] :=
  ⟨rfl, rfl, rfl⟩

/-- C5: whenever `get_top_predictions` completes with a prediction list, that
list is the first (batch index 0) entry of the library's decoded top-k
output, it is ordered by non-increasing probability, and — provided the
network's scores are probabilities in [0, 1], as a softmax output is — every
returned probability lies in [0, 1]. -/
theorem get_top_predictions_sorted_bounded :
    ∀ (app : KerasApplication) (table : List (String × String))
      (predict : Tensor → List (List ℚ)) (image : PILImage)
      (res : List Prediction),
      (∀ row ∈ predict (app.preprocess_input image), ∀ s ∈ row, 0 ≤ s ∧ s ≤ 1) →
      (app.get_top_predictions table predict image).2 = some res →
      List.Pairwise (fun a b => b.prob ≤ a.prob) res
      ∧ (∀ p ∈ res, 0 ≤ p.prob ∧ p.prob ≤ 1)
      ∧ (decode_predictions table (predict (app.preprocess_input image))).head? = some res := by
  intro app table predict image res hbound hres
  have hres' : (decode_predictions table (predict (app.preprocess_input image))).head?
      = some res := hres
  cases hp : predict (app.preprocess_input image) with
  | nil => rw [hp] at hres'; simp [decode_predictions] at hres'
  | cons scores rest =>
      rw [hp] at hres'
      have hrow : res = (sortDesc (zipTable table scores)).take 5 := by
        simp only [decode_predictions, List.map_cons, List.head?_cons,
          Option.some.injEq] at hres'
        exact hres'.symm
      refine ⟨?_, ?_, hres'⟩
      · rw [hrow]
        exact List.Pairwise.sublist (List.take_sublist 5 _) (sortDesc_pairwise _)
      · intro p hpmem
        rw [hrow] at hpmem
        have h1 : p ∈ sortDesc (zipTable table scores) :=
          (List.take_sublist 5 _).subset hpmem
        have h2 : p ∈ zipTable table scores := (sortDesc_perm _).mem_iff.mp h1
        rcases List.mem_map.mp h2 with ⟨ts, hts, hpe⟩
        rcases ts with ⟨⟨i, l⟩, s⟩
        have hs : s ∈ scores := (List.of_mem_zip hts).2
        have hprob : p.prob = s := by rw [← hpe]
        rw [hprob]
        refine hbound scores ?_ s hs
        rw [hp]
        exact List.mem_cons_self scores rest

/-- Witness for C5: the ResNet50 profile on a 640×480 RGB image with a
network returning the score row [0.87, 0.05] over a two-class table. -/
theorem get_top_predictions_sorted_bounded_witness :
    (∀ row ∈ (fun _ : Tensor => [[(87:ℚ)/100, 5/100]])
        ((⟨"ResNet50", KerasArch.ResNet50, (224, 224),
            PreprocessFn.imagenet_utils_preprocess,
            "https://keras.io/applications/#resnet"⟩ : KerasApplication).preprocess_input
          ⟨640, 480, 3⟩),
        ∀ s ∈ row, 0 ≤ s ∧ s ≤ 1)
    ∧ (List.Pairwise (fun a b => b.prob ≤ a.prob)
          [(⟨"n01", "cat", (87:ℚ)/100⟩ : Prediction), ⟨"n02", "dog", 5/100⟩]
        ∧ (∀ p ∈ [(⟨"n01", "cat", (87:ℚ)/100⟩ : Prediction), ⟨"n02", "dog", 5/100⟩],
              0 ≤ p.prob ∧ p.prob ≤ 1)
        ∧ (decode_predictions [("n01", "cat"), ("n02", "dog")]
              ((fun _ : Tensor => [[(87:ℚ)/100, 5/100]])
                ((⟨"ResNet50", KerasArch.ResNet50, (224, 224),
                    PreprocessFn.imagenet_utils_preprocess,
                    "https://keras.io/applications/#resnet"⟩ : KerasApplication).preprocess_input
                  ⟨640, 480, 3⟩))).head?
            = some [(⟨"n01", "cat", (87:ℚ)/100⟩ : Prediction), ⟨"n02", "dog", 5/100⟩]) :=
  ⟨by norm_num,
   get_top_predictions_sorted_bounded
     (⟨"ResNet50", KerasArch.ResNet50, (224, 224),
        PreprocessFn.imagenet_utils_preprocess,
        "https://keras.io/applications/#resnet"⟩ : KerasApplication)
     [("n01", "cat"), ("n02", "dog")]
     (fun _ : Tensor => [[(87:ℚ)/100, 5/100]])
     ⟨640, 480, 3⟩
     [(⟨"n01", "cat", (87:ℚ)/100⟩ : Prediction), ⟨"n02", "dog", 5/100⟩]
     (by norm_num)
     (by norm_num [KerasApplication.get_top_predictions, decode_predictions,
        zipTable, sortDesc, insertDesc])⟩
